import Mathlib

/-!
Verification development for the Quizly backend (Django/DRF).

Shallow embedding of the quiz-generation pipeline
(`quizzes_app/api/utils.py`, `quizzes_app/api/views.py`), the quiz
detail views, and the auth endpoints (`auth_app/api/views.py`,
`auth_app/api/serializers.py`).  External collaborators (yt-dlp, the
Whisper transcriber, the Gemini client together with `json.loads` on
its reply, and Django's field-level serializer validation) are modelled
as oracle parameters describing their observable outcome; everything
the repository's own code does is translated branch by branch.
-/

namespace Quizly

/-! ## JSON values

Values produced by Python's `json.loads`.  Numbers are modelled as
integers (the generative replies relevant here carry no fractional
numbers; only truthiness and equality of numbers matter to the code).
Objects are association lists; `json.loads` yields dicts with unique
keys (on duplicate keys the last wins), so lookup below is
order-irrelevant on parser output. -/

inductive Json where
  | null : Json
  | bool (b : Bool) : Json
  | num (n : Int) : Json
  | str (s : String) : Json
  | arr (xs : List Json) : Json
  | obj (kvs : List (String × Json)) : Json

/-- Python truthiness (`if not x`) on JSON-decoded values: `None`,
`False`, `0`, `""`, `[]` and `{}` are falsy. -/
def pyTruthy : Json → Bool
  | .null => false
  | .bool b => b
  | .num n => n != 0
  | .str s => s != ""
  | .arr xs => !xs.isEmpty
  | .obj kvs => !kvs.isEmpty

/-- Python `dict.get` / `dict[...]` lookup on a decoded JSON object
(keys are unique on `json.loads` output, so first match is the value). -/
def dictGet (kvs : List (String × Json)) (k : String) : Option Json :=
  (kvs.find? (fun kv => kv.1 == k)).map (fun kv => kv.2)

/-! ## VideoIdentifier — `extract_video_id` (utils.py:9-36)

Python: `re.search(r'(?:v=|\/)([0-9A-Za-z_-]{11}).*', url)`.
`re.search` returns the leftmost match; at each position the
alternation tries `v=` and then `/`, followed by exactly 11 characters
of the class `[0-9A-Za-z_-]`; the trailing `.*` constrains nothing. -/

/-- Character class `[0-9A-Za-z_-]` (ASCII, as in Python's `re`). -/
def isIdChar (c : Char) : Bool :=
  c.isDigit || c.isUpper || c.isLower || c == '_' || c == '-'

/-- Try to read exactly 11 id-characters at the current position
(the capturing group `([0-9A-Za-z_-]{11})`). -/
def tokenAt (cs : List Char) : Option (List Char) :=
  let t := cs.take 11
  if t.length == 11 && t.all isIdChar then some t else none

/-- One attempt of the pattern at the current position: `v=` then the
group, or `/` then the group. -/
def matchAt : List Char → Option (List Char)
  | 'v' :: '=' :: rest => tokenAt rest
  | '/' :: rest => tokenAt rest
  | _ => none

/-- Leftmost search of the pattern, as `re.search` performs it. -/
def searchFrom : List Char → Option (List Char)
  | [] => none
  | c :: rest =>
    match matchAt (c :: rest) with
    | some t => some t
    | none => searchFrom rest

/-- `extract_video_id` (utils.py:30-36): on a match, return the
normalized watch URL built from the captured 11-character id;
otherwise `None`. -/
def extract_video_id (url : String) : Option String :=
  match searchFrom url.data with
  | some vid => some ("https://www.youtube.com/watch?v=" ++ String.mk vid)
  | none => none

/-- Specification predicate: `t` is an 11-character id token occurring
in `cs` immediately after `v=` or after a `/`. -/
def tokenIn (cs t : List Char) : Prop :=
  t.length = 11 ∧ t.all isIdChar = true ∧
    ∃ p q, cs = p ++ 'v' :: '=' :: (t ++ q) ∨ cs = p ++ '/' :: (t ++ q)

/-! ## Decimal rendering of the user id

`views.py:46` builds the scratch base name with the f-string
`f"temp_audio_{request.user.id}"`; Python renders the integer id in
decimal without leading zeros.  `toDecimalAux` is a fuel-based
rendering (the fuel bounds the number of division steps; `n` itself is
always enough fuel). -/

def toDecimalAux : Nat → Nat → List Char → List Char
  | 0, n, acc => Nat.digitChar n :: acc
  | fuel + 1, n, acc =>
    if n < 10 then Nat.digitChar n :: acc
    else toDecimalAux fuel (n / 10) (Nat.digitChar (n % 10) :: acc)

/-- Decimal rendering of a natural number, as Python's `str` on a
non-negative `int`. -/
def pyStrNat (n : Nat) : String :=
  String.mk (toDecimalAux n n [])

/-- Scratch base name `f"temp_audio_{request.user.id}"` (views.py:46). -/
def scratchBase (uid : Nat) : String :=
  "temp_audio_" ++ pyStrNat uid

/-- Full scratch file path `f"{output_path}.{ext}"` as written by the
downloader for a container extension `ext` (utils.py:52,65). -/
def scratchPath (uid : Nat) (ext : String) : String :=
  scratchBase uid ++ "." ++ ext

/-! ## Filesystem model

The scratch directory is a duplicate-free list of file paths.
`os.path.exists` is membership, writing a path adds it (overwriting
keeps a single entry), `os.remove` erases it. -/

/-- The set of files on disk. -/
abbrev FS := List String

/-- Writing a file: an existing path is overwritten in place. -/
def addFile (fs : FS) (f : String) : FS :=
  if fs.contains f then fs else f :: fs

/-- The guarded removal `if os.path.exists(p): os.remove(p)`
(views.py:54-55 and 80-81). -/
def cleanup (fs : FS) (f : String) : FS :=
  if fs.contains f then fs.erase f else fs

/-! ## AudioFetcher — `download_audio` (utils.py:38-69)

`yt_dlp` either raises or writes `{output_path}.{ext}` for an
extension `ext` chosen by the remote source; the function then probes
`webm`, `m4a`, `mp3` in order with `os.path.exists` and returns the
first hit, or `None` when none of the three exists. -/

/-- Outcome of a `download_audio` call: the download either raised out
of the function, or finished, leaving the scratch directory in the
returned state together with the probed result. -/
inductive DlOutcome where
  | raised (fs : FS) : DlOutcome
  | finished (fs : FS) (found : Option String) : DlOutcome

/-- The probe loop `for ext in ['webm', 'm4a', 'mp3']` (utils.py:64-67). -/
def findAudioFile (fs : FS) (output_path : String) : Option String :=
  (["webm", "m4a", "mp3"].find?
    (fun e => fs.contains (output_path ++ "." ++ e))).map
    (fun e => output_path ++ "." ++ e)

/-- `download_audio` (utils.py:38-69).  `remoteExt` is the oracle for
the yt-dlp call: `none` means `ydl.download` raised (writing nothing),
`some ext` means it wrote `{output_path}.{ext}`. -/
def download_audio (fs : FS) (output_path : String) (remoteExt : Option String) :
    DlOutcome :=
  match remoteExt with
  | none => .raised fs
  | some ext => let fs1 := addFile fs (output_path ++ "." ++ ext)
                .finished fs1 (findAudioFile fs1 output_path)

/-! ## QuizGenerator — `generate_quiz_from_transcript` (utils.py:85-146)

The Gemini call and `json.loads` on its (fence-stripped) reply are
external collaborators; the oracle records their combined outcome: the
call raised, or the reply text failed to parse as JSON after
fence-stripping, or it parsed to a JSON value. -/

/-- Oracle for the generative backend reply. -/
inductive GenReply where
  | raises : GenReply
  | nonJson : GenReply
  | parsed (j : Json) : GenReply

/-- `generate_quiz_from_transcript` (utils.py:85-146): without a
(truthy) API key it returns `None` (utils.py:99-101); a raising call or
an unparsable reply is caught and mapped to `None` (utils.py:144-146);
a parsed reply is returned as-is, with no validation of its shape
(utils.py:142). -/
def generate_quiz_from_transcript (apiKey : Option String) (reply : GenReply) :
    Option Json :=
  match apiKey with
  | none => none
  | some k =>
    if k == "" then none
    else
      match reply with
      | .raises => none
      | .nonJson => none
      | .parsed j => some j

/-! ## Storage model — `quizzes_app/models.py`

A `Quiz` row (models.py:5-17) and a `Question` row (models.py:22-34).
`title`, `description`, `question_title`, `question_options` and
`answer` hold whatever JSON value the view assigned (the view passes
decoded JSON values straight through).  Timestamps are framework-set
and irrelevant to the claims. -/

structure QuizRec where
  id : Nat
  user : Nat
  title : Json
  description : Json
  video_url : String

structure QuestionRec where
  id : Nat
  quiz : Nat
  question_title : Json
  question_options : Json
  answer : Json

/-- The relational store for quizzes and questions, with the id
sequences the ORM draws fresh primary keys from. -/
structure Db where
  quizzes : List QuizRec
  questions : List QuestionRec
  nextQuizId : Nat
  nextQuestionId : Nat

/-! ## QuizPipeline — `CreateQuizView.post` (views.py:17-82)

The loop `for q_data in quiz_data.get('questions', [])` with the three
subscript accesses (views.py:68-74).  A `q_data` that is not a dict, or
a dict missing one of the three keys, raises (`TypeError`/`KeyError`),
which the surrounding `except` turns into a 500 response after the
guarded cleanup of the (already removed) audio file — rows created
before the raise stay in the store. -/
def insertQuestions (audio_file : String) (quizId : Nat) (qs : List Json)
    (fs : FS) (db : Db) : Nat × FS × Db :=
  match qs with
  | [] => (201, fs, db)
  | q :: rest =>
    match q with
    | .obj qkvs =>
      match dictGet qkvs "question_title", dictGet qkvs "question_options",
            dictGet qkvs "answer" with
      | some qt, some qo, some ans =>
        insertQuestions audio_file quizId rest fs
          { db with
            questions := db.questions ++
              [{ id := db.nextQuestionId, quiz := quizId,
                 question_title := qt, question_options := qo, answer := ans }],
            nextQuestionId := db.nextQuestionId + 1 }
      | _, _, _ => (500, cleanup fs audio_file, db)
    | _ => (500, cleanup fs audio_file, db)

/-- The persistence tail of `CreateQuizView.post` (views.py:61-77),
entered with a truthy `quiz_data`.  `quiz_data.get(...)` requires a
dict: on any other truthy value the attribute access raises and the
`except` block answers 500 (views.py:79-82).  `Quiz.objects.create` is
a single committed insert; the question inserts follow one by one with
no enclosing transaction. -/
def persistQuiz (audio_file : String) (uid : Nat) (clean_url : String)
    (quiz_data : Json) (fs : FS) (db : Db) : Nat × FS × Db :=
  match quiz_data with
  | .obj kvs =>
    let quiz : QuizRec :=
      { id := db.nextQuizId, user := uid,
        title := (dictGet kvs "title").getD (.str "Generated Quiz"),
        description := (dictGet kvs "description").getD (.str ""),
        video_url := clean_url }
    let db1 : Db := { db with quizzes := db.quizzes ++ [quiz],
                              nextQuizId := db.nextQuizId + 1 }
    match (dictGet kvs "questions").getD (.arr []) with
    | .arr qs => insertQuestions audio_file quiz.id qs fs db1
    | _ => (500, cleanup fs audio_file, db1)
  | _ => (500, cleanup fs audio_file, db)

/-- Oracle for one run of the pipeline: the outcomes of the external
calls it makes, plus the request data. -/
structure Env where
  urlValid : Bool
  inputUrl : String
  userId : Nat
  remoteExt : Option String
  transcript : Option String
  apiKey : Option String
  genReply : GenReply

/-- `CreateQuizView.post` (views.py:17-82), returning the HTTP status
together with the final scratch-directory and store states.
`urlValid` is the DRF `URLField` check of `QuizCreateSerializer`
(views.py:35-37); `transcript = none` means `transcribe_audio` raised
(Whisper failure), handled by the `except` block. -/
def createQuizPost (env : Env) (fs : FS) (db : Db) : Nat × FS × Db :=
  if env.urlValid = false then (400, fs, db)
  else
    match extract_video_id env.inputUrl with
    | none => (400, fs, db)
    | some clean_url =>
      let temp_filename := scratchBase env.userId
      match download_audio fs temp_filename env.remoteExt with
      | .raised fs1 => (500, fs1, db)
      | .finished fs1 none => (500, fs1, db)
      | .finished fs1 (some audio_file) =>
        match env.transcript with
        | none => (500, cleanup fs1 audio_file, db)
        | some _t =>
          let fs2 := cleanup fs1 audio_file
          match generate_quiz_from_transcript env.apiKey env.genReply with
          | none => (500, fs2, db)
          | some quiz_data =>
            if pyTruthy quiz_data = false then (500, fs2, db)
            else persistQuiz audio_file env.userId clean_url quiz_data fs2 db

/-! ## QuizDetailView (views.py:103-166) -/

/-- Result of `QuizDetailView.get_object` (views.py:109-116):
`get_object_or_404` raises `Http404` when no row has primary key `pk`
(rendered by the framework as a 404 response); a row owned by another
user makes the helper return `None`; otherwise the row comes back. -/
inductive GetObj where
  | http404 : GetObj
  | denied : GetObj
  | found (q : QuizRec) : GetObj

/-- `QuizDetailView.get_object` (views.py:109-116). -/
def get_object (db : Db) (pk user : Nat) : GetObj :=
  match db.quizzes.find? (fun q => q.id == pk) with
  | none => .http404
  | some q => if q.user != user then .denied else .found q

/-- `QuizDetailView.get` (views.py:118-132): status only (the body is
serializer plumbing). -/
def quizDetailGet (db : Db) (pk user : Nat) : Nat :=
  match get_object db pk user with
  | .http404 => 404
  | .denied => 403
  | .found _ => 200

/-- `QuizDetailView.patch` (views.py:134-151); `dataValid` is the DRF
serializer verdict on the partial payload. -/
def quizDetailPatch (db : Db) (pk user : Nat) (dataValid : Bool) : Nat :=
  match get_object db pk user with
  | .http404 => 404
  | .denied => 403
  | .found _ => if dataValid then 200 else 400

/-- `QuizDetailView.delete` (views.py:153-166); `quiz.delete()`
cascades to the questions (`on_delete=models.CASCADE`, models.py:25). -/
def quizDetailDelete (db : Db) (pk user : Nat) : Nat × Db :=
  match get_object db pk user with
  | .http404 => (404, db)
  | .denied => (403, db)
  | .found q =>
    (204, { db with quizzes := db.quizzes.filter (fun r => r.id != q.id),
                    questions := db.questions.filter (fun r => r.quiz != q.id) })

/-! ## Auth — `auth_app/api/views.py`, `auth_app/api/serializers.py` -/

/-- A `Set-Cookie` issued via `response.set_cookie`. -/
structure Cookie where
  key : String
  value : String
  httponly : Bool
  samesite : String
  secure : Bool
  max_age : Nat

/-- The authenticated user, as `django.contrib.auth.authenticate`
returns it. -/
structure AuthUser where
  id : Nat
  username : String
  email : String

/-- `LoginView.post` (auth views.py:51-111).  `serializerValid` is the
`LoginSerializer` verdict (both fields present); `authResult` is the
outcome of `authenticate` (the password check lives in the framework);
`accessTok`/`refreshTok` are the token strings minted by the JWT
library.  Returns the status and the cookies set on the response. -/
def loginPost (serializerValid : Bool) (authResult : Option AuthUser)
    (accessTok refreshTok : String) : Nat × List Cookie :=
  if serializerValid = false then (400, [])
  else
    match authResult with
    | none => (401, [])
    | some _user =>
      (200,
        [{ key := "access_token", value := accessTok, httponly := true,
           samesite := "Lax", secure := false, max_age := 30 * 60 },
         { key := "refresh_token", value := refreshTok, httponly := true,
           samesite := "Lax", secure := false, max_age := 24 * 60 * 60 }])

/-- A stored user row (the hash itself is framework-made and opaque). -/
structure StoredUser where
  username : String
  email : String

/-- A registration request body. -/
structure RegRequest where
  username : String
  email : String
  password : String
  confirmed_password : String

/-- `RegistrationSerializer.validate` (auth serializers.py:22-45):
the first failing check raises a `ValidationError` keyed to a field;
`none` means the object-level validation passed. -/
def registrationValidate (users : List StoredUser) (d : RegRequest) :
    Option (String × String) :=
  if d.password != d.confirmed_password then
    some ("password", "The passwords do not match.")
  else if users.any (fun u => u.email == d.email) then
    some ("email", "this email is already in use.")
  else none

/-- `RegisterView.post` (auth views.py:18-41) combined with the
serializer: `fieldsValid` is the DRF field-level verdict (types,
required fields, username uniqueness); the object-level `validate`
above runs only when it holds.  Returns status, the user table after
the request, and the object-level error when one was raised. -/
def registerPost (users : List StoredUser) (fieldsValid : Bool)
    (d : RegRequest) : Nat × List StoredUser × Option (String × String) :=
  if fieldsValid = false then (400, users, none)
  else
    match registrationValidate users d with
    | some err => (400, users, some err)
    | none =>
      (201, users ++ [{ username := d.username, email := d.email }], none)

/-! ## Spec-side predicates

These follow the spec's words (§3 invariants, §4.4 schema), to be
compared with what the code actually accepts and stores. -/

/-- String extraction from a JSON value. -/
def asString : Json → Option String
  | .str s => some s
  | _ => none

/-- Spec §3 / §8: a stored question "has exactly 4 options" that are
"distinct option strings" and "an answer present in those options". -/
def specQuestionInvariant (q : QuestionRec) : Bool :=
  match q.question_options with
  | .arr os =>
    match os.mapM asString with
    | some ss =>
      ss.length == 4 && decide ss.Nodup &&
        (match asString q.answer with
         | some a => ss.contains a
         | none => false)
    | none => false
  | _ => false

/-- Spec §4.4: the required shape of one question entry of the
generated draft. -/
def specQuestionShape (j : Json) : Bool :=
  match j with
  | .obj kvs =>
    (match dictGet kvs "question_title" with
     | some (.str _) => true
     | _ => false) &&
    (match dictGet kvs "question_options" with
     | some (.arr os) => os.length == 4 && os.all (fun o => (asString o).isSome)
     | _ => false) &&
    (match dictGet kvs "answer" with
     | some (.str _) => true
     | _ => false)
  | _ => false

/-- Spec §4.4: the required shape of the whole generated draft
(`title`, `description`, `questions` with well-shaped entries). -/
def specRequiredShape (j : Json) : Bool :=
  match j with
  | .obj kvs =>
    (match dictGet kvs "title" with
     | some (.str _) => true
     | _ => false) &&
    (match dictGet kvs "description" with
     | some (.str _) => true
     | _ => false) &&
    (match dictGet kvs "questions" with
     | some (.arr qs) => qs.all specQuestionShape
     | _ => false)
  | _ => false

/-! ## Statement helpers -/

/-- The value of a digit list (decimal), used to invert `toDecimalAux`. -/
def charVal (c : Char) : Nat := c.toNat - 48

/-- Decimal value of a character list. -/
def valOfDigits (cs : List Char) : Nat :=
  cs.foldl (fun a c => 10 * a + charVal c) 0

/-- The three subscript lookups of the question loop succeed on this
entry (views.py:71-73): it is a dict holding all three keys. -/
def questionKeysPresent : Json → Bool
  | .obj qkvs =>
    (dictGet qkvs "question_title").isSome &&
      (dictGet qkvs "question_options").isSome &&
      (dictGet qkvs "answer").isSome
  | _ => false

/-- The rows the question loop inserts for a list of well-keyed
entries, with ids drawn from `nid` on: the closed form of
`insertQuestions` on its success path. -/
def mkQuestions (quizId : Nat) : Nat → List Json → List QuestionRec
  | _, [] => []
  | nid, q :: rest =>
    match q with
    | .obj qkvs =>
      match dictGet qkvs "question_title", dictGet qkvs "question_options",
            dictGet qkvs "answer" with
      | some qt, some qo, some ans =>
        { id := nid, quiz := quizId, question_title := qt,
          question_options := qo, answer := ans } ::
          mkQuestions quizId (nid + 1) rest
      | _, _, _ => []
    | _ => []

/-! ## Concrete sample inputs for witnesses and counterexamples -/

/-- An empty store. -/
def sampleDb : Db :=
  { quizzes := [], questions := [], nextQuizId := 1, nextQuestionId := 1 }

/-- A question entry with only 3 options and an answer that is not
among them. -/
def badOptionsQuestion : Json :=
  .obj [("question_title", .str "q1"),
        ("question_options", .arr [.str "A", .str "B", .str "C"]),
        ("answer", .str "D")]

/-- A well-keyed question entry. -/
def okQuestion : Json :=
  .obj [("question_title", .str "g"),
        ("question_options", .arr [.str "A", .str "B", .str "C", .str "E"]),
        ("answer", .str "A")]

/-- A question entry missing the `answer` key: subscripting it raises
`KeyError` mid-loop. -/
def noAnswerQuestion : Json :=
  .obj [("question_title", .str "bad"),
        ("question_options", .arr [.str "A", .str "B", .str "C", .str "E"])]

/-- A fully successful run whose generated draft contains
`badOptionsQuestion`. -/
def envBadOptions : Env :=
  { urlValid := true, inputUrl := "https://youtu.be/dQw4w9WgXcQ",
    userId := 7, remoteExt := some "webm", transcript := some "text",
    apiKey := some "k",
    genReply := .parsed (.obj [("title", .str "T"), ("description", .str "D"),
      ("questions", .arr [badOptionsQuestion])]) }

/-- A run in which yt-dlp stores the audio with extension `opus`,
outside the probed set. -/
def envOpus : Env := { envBadOptions with remoteExt := some "opus" }

/-- A run whose draft has a malformed second question out of three. -/
def envMidInsert : Env :=
  { envBadOptions with
    genReply := .parsed (.obj [("title", .str "T"),
      ("questions", .arr [okQuestion, noAnswerQuestion, okQuestion])]) }

/-- A run whose parsed draft is a non-empty dict with none of the
`title`/`description`/`questions` keys. -/
def envNoKeys : Env :=
  { envBadOptions with genReply := .parsed (.obj [("foo", .num 1)]) }

/-- The stored row produced from `badOptionsQuestion`. -/
def invalidStoredQuestion : QuestionRec :=
  { id := 1, quiz := 1, question_title := .str "q1",
    question_options := .arr [.str "A", .str "B", .str "C"],
    answer := .str "D" }

/-- The stored row produced from `okQuestion`. -/
def okStoredQuestion : QuestionRec :=
  { id := 1, quiz := 1, question_title := .str "g",
    question_options := .arr [.str "A", .str "B", .str "C", .str "E"],
    answer := .str "A" }

/-- The quiz row persisted by the `envBadOptions` run. -/
def storedQuizTD : QuizRec :=
  { id := 1, user := 7, title := .str "T", description := .str "D",
    video_url := "https://www.youtube.com/watch?v=dQw4w9WgXcQ" }

/-- The quiz row persisted by the `envMidInsert` run (no `description`
key in the draft, so the empty-string default). -/
def storedQuizT : QuizRec :=
  { id := 1, user := 7, title := .str "T", description := .str "",
    video_url := "https://www.youtube.com/watch?v=dQw4w9WgXcQ" }

/-- The quiz row persisted by the `envNoKeys` run: both defaults. -/
def storedQuizDefaults : QuizRec :=
  { id := 1, user := 7, title := .str "Generated Quiz", description := .str "",
    video_url := "https://www.youtube.com/watch?v=dQw4w9WgXcQ" }

/-- A quiz owned by user 1, target of requests by user 2. -/
def otherUsersQuiz : QuizRec :=
  { id := 1, user := 1, title := .str "T", description := .str "",
    video_url := "https://www.youtube.com/watch?v=dQw4w9WgXcQ" }

/-- A store holding only `otherUsersQuiz`. -/
def twoUserDb : Db :=
  { quizzes := [otherUsersQuiz], questions := [], nextQuizId := 2,
    nextQuestionId := 1 }

/-! ## Lemmas about the regex search -/

theorem tokenAt_eq_some {cs t : List Char} (h : tokenAt cs = some t) :
    t.length = 11 ∧ t.all isIdChar = true ∧ ∃ q, cs = t ++ q := by
  simp only [tokenAt] at h
  split at h
  · rename_i hcond
    simp only [Bool.and_eq_true, beq_iff_eq] at hcond
    cases h
    exact ⟨hcond.1, hcond.2, cs.drop 11, (List.take_append_drop 11 cs).symm⟩
  · exact absurd h (by simp)

theorem tokenAt_of_token {t : List Char} (q : List Char) (h1 : t.length = 11)
    (h2 : t.all isIdChar = true) : tokenAt (t ++ q) = some t := by
  simp only [tokenAt]
  rw [show (11 : Nat) = t.length from h1.symm, List.take_left]
  simp [h1, h2]

theorem matchAt_eq_some {cs t : List Char} (h : matchAt cs = some t) :
    (∃ rest, cs = 'v' :: '=' :: rest ∧ tokenAt rest = some t) ∨
    (∃ rest, cs = '/' :: rest ∧ tokenAt rest = some t) := by
  unfold matchAt at h
  split at h
  · exact Or.inl ⟨_, rfl, h⟩
  · exact Or.inr ⟨_, rfl, h⟩
  · exact absurd h (by simp)

theorem searchFrom_sound {cs : List Char} {t : List Char}
    (h : searchFrom cs = some t) : tokenIn cs t := by
  induction cs with
  | nil => exact absurd h (by simp [searchFrom])
  | cons c rest ih =>
    rw [searchFrom] at h
    split at h
    · rename_i t' hm
      cases h
      rcases matchAt_eq_some hm with ⟨r, hr, htok⟩ | ⟨r, hr, htok⟩ <;>
        obtain ⟨h1, h2, q, hq⟩ := tokenAt_eq_some htok
      · exact ⟨h1, h2, [], q, Or.inl (by rw [hr, hq]; rfl)⟩
      · exact ⟨h1, h2, [], q, Or.inr (by rw [hr, hq]; rfl)⟩
    · obtain ⟨h1, h2, p, q, hor⟩ := ih h
      exact ⟨h1, h2, c :: p, q, by rcases hor with h' | h' <;> simp [h']⟩

theorem searchFrom_isSome_cons {c : Char} {rest : List Char}
    (h : (searchFrom rest).isSome = true) :
    (searchFrom (c :: rest)).isSome = true := by
  rw [searchFrom]
  split
  · rfl
  · exact h

theorem searchFrom_complete {cs t : List Char} (h : tokenIn cs t) :
    (searchFrom cs).isSome = true := by
  obtain ⟨h1, h2, p, q, hor⟩ := h
  induction p generalizing cs with
  | nil =>
    rcases hor with rfl | rfl
    · rw [List.nil_append, searchFrom,
        show matchAt ('v' :: '=' :: (t ++ q)) = some t from tokenAt_of_token q h1 h2]
      rfl
    · rw [List.nil_append, searchFrom,
        show matchAt ('/' :: (t ++ q)) = some t from tokenAt_of_token q h1 h2]
      rfl
  | cons c p' ih =>
    rcases hor with rfl | rfl
    · rw [List.cons_append]
      exact searchFrom_isSome_cons (ih (Or.inl rfl))
    · rw [List.cons_append]
      exact searchFrom_isSome_cons (ih (Or.inr rfl))

/-- C3.  For every input string containing an 11-character token over
`[0-9A-Za-z_-]` immediately after `v=` or after a `/`,
`extract_video_id` returns `https://www.youtube.com/watch?v=<token>`
for such a token; for every string containing no such token it returns
`None`; no other result is possible. -/
theorem extract_video_id_canonicalizes (url : String) :
    (∀ u, extract_video_id url = some u →
      ∃ t, tokenIn url.data t ∧
        u = "https://www.youtube.com/watch?v=" ++ String.mk t) ∧
    (extract_video_id url = none → ∀ t, ¬ tokenIn url.data t) := by
  constructor
  · intro u h
    unfold extract_video_id at h
    cases hsf : searchFrom url.data with
    | none => rw [hsf] at h; exact absurd h (by simp)
    | some vid =>
      rw [hsf] at h
      refine ⟨vid, searchFrom_sound hsf, ?_⟩
      simpa using h.symm
  · intro h t htok
    have hs := searchFrom_complete htok
    unfold extract_video_id at h
    cases hsf : searchFrom url.data with
    | none => rw [hsf] at hs; exact absurd hs (by simp)
    | some vid => rw [hsf] at h; exact absurd h (by simp)

/-- Witness for C3 at the spec's own example input. -/
theorem extract_video_id_canonicalizes_witness :
    extract_video_id "https://youtu.be/dQw4w9WgXcQ?t=10" =
      some "https://www.youtube.com/watch?v=dQw4w9WgXcQ" ∧
    ∃ t, tokenIn (String.data "https://youtu.be/dQw4w9WgXcQ?t=10") t ∧
      "https://www.youtube.com/watch?v=dQw4w9WgXcQ" =
        "https://www.youtube.com/watch?v=" ++ String.mk t :=
  ⟨rfl, (extract_video_id_canonicalizes "https://youtu.be/dQw4w9WgXcQ?t=10").1 _ rfl⟩

/-- C5 counterexample.  A backend reply that parses as JSON but does
not match the required draft shape is returned as a value, not as the
failure `None`: `generate_quiz_from_transcript` trusts the parsed
reply. -/
theorem generate_shape_unchecked :
    generate_quiz_from_transcript (some "k") (.parsed (.obj [("foo", .num 1)])) =
      some (.obj [("foo", .num 1)]) ∧
    specRequiredShape (.obj [("foo", .num 1)]) = false :=
  ⟨rfl, rfl⟩

/-- C5 amended.  `generate_quiz_from_transcript` returns the typed
failure `None` when credentials are absent (or empty), when the
backend call raises, and when the reply is not JSON; no exception
leaves the function in those cases.  A reply that parses as JSON is
returned as-is, with no validation of its shape. -/
theorem generate_failure_to_none (key : Option String) (reply : GenReply) :
    generate_quiz_from_transcript none reply = none ∧
    generate_quiz_from_transcript (some "") reply = none ∧
    generate_quiz_from_transcript key .raises = none ∧
    generate_quiz_from_transcript key .nonJson = none ∧
    (generate_quiz_from_transcript key reply = none ∨
      ∃ j, reply = .parsed j ∧ generate_quiz_from_transcript key reply = some j) := by
  refine ⟨rfl, rfl, ?_, ?_, ?_⟩
  · cases key with
    | none => rfl
    | some k =>
      by_cases hk : (k == "") = true <;>
        simp [generate_quiz_from_transcript, hk]
  · cases key with
    | none => rfl
    | some k =>
      by_cases hk : (k == "") = true <;>
        simp [generate_quiz_from_transcript, hk]
  · cases key with
    | none => exact Or.inl rfl
    | some k =>
      by_cases hk : (k == "") = true
      · exact Or.inl (by simp [generate_quiz_from_transcript, hk])
      · cases reply with
        | raises => exact Or.inl (by simp [generate_quiz_from_transcript, hk])
        | nonJson => exact Or.inl (by simp [generate_quiz_from_transcript, hk])
        | parsed j =>
          exact Or.inr ⟨j, rfl, by simp [generate_quiz_from_transcript, hk]⟩

/-- C8.  Login with a well-formed body: failed authentication yields
401 with no cookie set; successful authentication yields 200 and sets
exactly the `access_token` cookie (httpOnly, SameSite=Lax, max-age 30
minutes) and the `refresh_token` cookie (httpOnly, SameSite=Lax,
max-age 24 hours). -/
theorem loginPost_cookies (a r : String) :
    loginPost true none a r = (401, []) ∧
    ∀ u : AuthUser, loginPost true (some u) a r =
      (200, [⟨"access_token", a, true, "Lax", false, 30 * 60⟩,
             ⟨"refresh_token", r, true, "Lax", false, 24 * 60 * 60⟩]) :=
  ⟨rfl, fun _ => rfl⟩

/-- C9.  A registration request whose password differs from
`confirmed_password` (with field-level validation passing) is answered
400 with the error keyed to `password`, and the user table is
unchanged. -/
theorem registerPost_password_mismatch (users : List StoredUser)
    (d : RegRequest) (h : d.password ≠ d.confirmed_password) :
    registerPost users true d =
      (400, users, some ("password", "The passwords do not match.")) := by
  unfold registerPost registrationValidate
  simp [h]

/-- Witness for C9 at a concrete mismatching request. -/
theorem registerPost_password_mismatch_witness :
    registerPost [] true
        { username := "u", email := "u@example.com",
          password := "a", confirmed_password := "b" } =
      (400, [], some ("password", "The passwords do not match.")) :=
  registerPost_password_mismatch [] _ (by decide)

/-! ## Lemmas about the decimal scratch name (C7) -/

theorem charVal_digitChar : ∀ d, d < 10 → charVal (Nat.digitChar d) = d := by
  decide

theorem digitChar_isDigit : ∀ d, d < 10 → (Nat.digitChar d).isDigit = true := by
  decide

theorem toDecimalAux_append (fuel : Nat) : ∀ (n : Nat) (acc : List Char),
    toDecimalAux fuel n acc = toDecimalAux fuel n [] ++ acc := by
  induction fuel with
  | zero => intro n acc; simp [toDecimalAux]
  | succ f ih =>
    intro n acc
    by_cases h : n < 10
    · simp [toDecimalAux, h]
    · rw [toDecimalAux, toDecimalAux, if_neg h, if_neg h, ih (n / 10), ih (n / 10) [Nat.digitChar (n % 10)]]
      simp

theorem valOfDigits_append_one (cs : List Char) (c : Char) :
    valOfDigits (cs ++ [c]) = 10 * valOfDigits cs + charVal c := by
  simp [valOfDigits, List.foldl_append]

theorem valOfDigits_toDecimalAux (fuel : Nat) : ∀ n, n ≤ fuel →
    valOfDigits (toDecimalAux fuel n []) = n := by
  induction fuel with
  | zero =>
    intro n hn
    interval_cases n
    simp only [toDecimalAux, valOfDigits, List.foldl]
    decide
  | succ f ih =>
    intro n hn
    by_cases h : n < 10
    · rw [toDecimalAux, if_pos h]
      simp [valOfDigits, charVal_digitChar n h]
    · rw [toDecimalAux, if_neg h, toDecimalAux_append, valOfDigits_append_one,
        ih (n / 10) (by omega), charVal_digitChar (n % 10) (by omega)]
      omega

theorem pyStrNat_injective {n m : Nat} (h : pyStrNat n = pyStrNat m) : n = m := by
  have hd : toDecimalAux n n [] = toDecimalAux m m [] := by
    simpa [pyStrNat, String.ext_iff] using h
  have := valOfDigits_toDecimalAux n n le_rfl
  rw [hd, valOfDigits_toDecimalAux m m le_rfl] at this
  exact this.symm

theorem toDecimalAux_digits (fuel : Nat) : ∀ n, n ≤ fuel →
    ∀ c ∈ toDecimalAux fuel n [], c.isDigit = true := by
  induction fuel with
  | zero =>
    intro n hn
    interval_cases n
    simp only [toDecimalAux, List.mem_singleton]
    intro c hc
    rw [hc]
    decide
  | succ f ih =>
    intro n hn c hc
    by_cases h : n < 10
    · rw [toDecimalAux, if_pos h] at hc
      simp at hc
      rw [hc]
      exact digitChar_isDigit n h
    · rw [toDecimalAux, if_neg h, toDecimalAux_append] at hc
      rcases List.mem_append.1 hc with hc1 | hc2
      · exact ih (n / 10) (by omega) c hc1
      · simp at hc2
        rw [hc2]
        exact digitChar_isDigit (n % 10) (by omega)

theorem isDigit_ne_dot {c : Char} (h : c.isDigit = true) : c ≠ '.' := by
  intro rfl'
  rw [rfl'] at h
  exact absurd h (by decide)

theorem append_dot_inj : ∀ (a b t1 t2 : List Char),
    (∀ c ∈ a, c ≠ '.') → (∀ c ∈ b, c ≠ '.') →
    a ++ '.' :: t1 = b ++ '.' :: t2 → a = b ∧ t1 = t2 := by
  intro a
  induction a with
  | nil =>
    intro b t1 t2 _ hb h
    cases b with
    | nil => simpa using h
    | cons d bs =>
      simp only [List.nil_append, List.cons_append, List.cons.injEq] at h
      exact absurd h.1.symm (hb d (by simp))
  | cons c as ih =>
    intro b t1 t2 ha hb h
    cases b with
    | nil =>
      simp only [List.cons_append, List.nil_append, List.cons.injEq] at h
      exact absurd h.1 (ha c (by simp))
    | cons d bs =>
      simp only [List.cons_append, List.cons.injEq] at h
      obtain ⟨rfl, h2⟩ := h
      obtain ⟨h3, h4⟩ := ih bs t1 t2 (fun x hx => ha x (by simp [hx]))
        (fun x hx => hb x (by simp [hx])) h2
      exact ⟨by rw [h3], h4⟩

/-- C7.  Two runs by users with distinct ids use distinct scratch
audio file paths, for every pair of container extensions: the decimal
user id embedded in `temp_audio_{id}` makes the base names, and hence
the full paths, differ. -/
theorem scratch_paths_distinct (u1 u2 : Nat) (e1 e2 : String)
    (h : u1 ≠ u2) : scratchPath u1 e1 ≠ scratchPath u2 e2 := by
  intro heq
  have hd := congrArg String.data heq
  simp only [scratchPath, scratchBase, String.data_append] at hd
  rw [List.append_assoc, List.append_assoc] at hd
  have hd2 := List.append_cancel_left hd
  have hsplit : (pyStrNat u1).data ++ '.' :: e1.data =
      (pyStrNat u2).data ++ '.' :: e2.data := by
    simpa using hd2
  have h1 : ∀ c ∈ (pyStrNat u1).data, c ≠ '.' := fun c hc =>
    isDigit_ne_dot (toDecimalAux_digits u1 u1 le_rfl c hc)
  have h2 : ∀ c ∈ (pyStrNat u2).data, c ≠ '.' := fun c hc =>
    isDigit_ne_dot (toDecimalAux_digits u2 u2 le_rfl c hc)
  obtain ⟨hp, _⟩ := append_dot_inj _ _ _ _ h1 h2 hsplit
  exact h (pyStrNat_injective (String.ext hp))

/-- Witness for C7 at user ids 1 and 2. -/
theorem scratch_paths_distinct_witness :
    (1 : Nat) ≠ 2 ∧ scratchPath 1 "webm" ≠ scratchPath 2 "webm" :=
  ⟨by decide, scratch_paths_distinct 1 2 "webm" "webm" (by decide)⟩

/-! ## Filesystem and persistence lemmas -/

theorem str_append_left_cancel {s a b : String} (h : s ++ a = s ++ b) : a = b := by
  have hd := congrArg String.data h
  simp only [String.data_append] at hd
  exact String.ext (List.append_cancel_left hd)

theorem str_append_ne (s a b : String) (hab : a ≠ b) :
    s ++ a ≠ s ++ b :=
  fun h => hab (str_append_left_cancel h)

theorem cleanup_single (f : String) : cleanup [f] f = [] := by
  simp [cleanup]

theorem cleanup_nil (f : String) : cleanup [] f = [] := rfl

theorem addFile_nil (f : String) : addFile [] f = [f] := rfl

theorem findAudioFile_single {e : String} (base : String)
    (he : e ∈ (["webm", "m4a", "mp3"] : List String)) :
    findAudioFile [base ++ "." ++ e] base = some (base ++ "." ++ e) := by
  simp only [List.mem_cons, List.mem_singleton, List.not_mem_nil, or_false] at he
  rcases he with rfl | rfl | rfl
  · rw [findAudioFile, List.find?_cons_of_pos _ (by simp)]
    rfl
  · rw [findAudioFile,
      List.find?_cons_of_neg _ (by
        simp only [List.contains_cons, List.contains_nil, Bool.or_false, beq_iff_eq]
        exact str_append_ne (base ++ ".") "webm" "m4a" (by decide)),
      List.find?_cons_of_pos _ (by simp)]
    rfl
  · rw [findAudioFile,
      List.find?_cons_of_neg _ (by
        simp only [List.contains_cons, List.contains_nil, Bool.or_false, beq_iff_eq]
        exact str_append_ne (base ++ ".") "webm" "mp3" (by decide)),
      List.find?_cons_of_neg _ (by
        simp only [List.contains_cons, List.contains_nil, Bool.or_false, beq_iff_eq]
        exact str_append_ne (base ++ ".") "m4a" "mp3" (by decide)),
      List.find?_cons_of_pos _ (by simp)]
    rfl

theorem insertQuestions_fs (audio_file : String) (quizId : Nat) (qs : List Json) :
    ∀ (fs : FS) (db : Db),
      (insertQuestions audio_file quizId qs fs db).2.1 = fs ∨
      (insertQuestions audio_file quizId qs fs db).2.1 = cleanup fs audio_file := by
  induction qs with
  | nil => intro fs db; exact Or.inl rfl
  | cons q rest ih =>
    intro fs db
    cases q with
    | obj qkvs =>
      rw [insertQuestions]
      cases hqt : dictGet qkvs "question_title" with
      | none => simp only [hqt]; exact Or.inr trivial
      | some qt =>
        cases hqo : dictGet qkvs "question_options" with
        | none => simp only [hqt, hqo]; exact Or.inr trivial
        | some qo =>
          cases hans : dictGet qkvs "answer" with
          | none => simp only [hqt, hqo, hans]; exact Or.inr trivial
          | some ans => simp only [hqt, hqo, hans]; exact ih fs _
    | null => exact Or.inr (by simp [insertQuestions])
    | bool b => exact Or.inr (by simp [insertQuestions])
    | num n => exact Or.inr (by simp [insertQuestions])
    | str s => exact Or.inr (by simp [insertQuestions])
    | arr xs => exact Or.inr (by simp [insertQuestions])

theorem persistQuiz_fs (audio_file : String) (uid : Nat) (url : String)
    (quiz_data : Json) (fs : FS) (db : Db) :
    (persistQuiz audio_file uid url quiz_data fs db).2.1 = fs ∨
    (persistQuiz audio_file uid url quiz_data fs db).2.1 = cleanup fs audio_file := by
  cases quiz_data with
  | obj kvs =>
    rw [persistQuiz]
    cases hq : (dictGet kvs "questions").getD (.arr []) with
    | arr qs => simp only [hq]; exact insertQuestions_fs _ _ _ fs _
    | null => simp only [hq]; exact Or.inr trivial
    | bool b => simp only [hq]; exact Or.inr trivial
    | num n => simp only [hq]; exact Or.inr trivial
    | str s => simp only [hq]; exact Or.inr trivial
    | obj kvs2 => simp only [hq]; exact Or.inr trivial
  | null => exact Or.inr (by simp [persistQuiz])
  | bool b => exact Or.inr (by simp [persistQuiz])
  | num n => exact Or.inr (by simp [persistQuiz])
  | str s => exact Or.inr (by simp [persistQuiz])
  | arr xs => exact Or.inr (by simp [persistQuiz])

/-- Whenever the URL is valid, the download stores a recognized
extension, transcription succeeds, and the backend reply parses to a
truthy value, the run reduces to the persistence tail over an empty
scratch directory. -/
theorem createQuizPost_reaches_persist (env : Env) (db : Db) (cu e tr k : String)
    (j : Json)
    (h1 : env.urlValid = true)
    (h2 : extract_video_id env.inputUrl = some cu)
    (h3 : env.remoteExt = some e)
    (he : e ∈ (["webm", "m4a", "mp3"] : List String))
    (h4 : env.transcript = some tr)
    (h5 : env.apiKey = some k)
    (hk : (k == "") = false)
    (h6 : env.genReply = .parsed j)
    (h7 : pyTruthy j = true) :
    createQuizPost env [] db =
      persistQuiz (scratchBase env.userId ++ "." ++ e) env.userId cu j [] db := by
  simp only [createQuizPost, h1, h2, h3, h4, h5, h6, h7, download_audio,
    addFile, List.contains_nil, Bool.false_eq_true, if_false,
    findAudioFile_single _ he, cleanup_single, generate_quiz_from_transcript, hk,
    Bool.true_eq_false, ite_false, ite_true]

theorem insertQuestions_ok (audio_file : String) (quizId : Nat) (qs : List Json) :
    ∀ (fs : FS) (db : Db), (∀ q ∈ qs, questionKeysPresent q = true) →
      insertQuestions audio_file quizId qs fs db =
        (201, fs,
          { db with
            questions := db.questions ++ mkQuestions quizId db.nextQuestionId qs,
            nextQuestionId := db.nextQuestionId + qs.length }) := by
  induction qs with
  | nil => intro fs db _; simp [insertQuestions, mkQuestions]
  | cons q rest ih =>
    intro fs db hkeys
    have hq := hkeys q (List.mem_cons_self _ _)
    cases q with
    | obj qkvs =>
      cases hqt : dictGet qkvs "question_title" with
      | none => rw [questionKeysPresent, hqt] at hq; simp at hq
      | some qt =>
        cases hqo : dictGet qkvs "question_options" with
        | none => rw [questionKeysPresent, hqt, hqo] at hq; simp at hq
        | some qo =>
          cases hans : dictGet qkvs "answer" with
          | none => rw [questionKeysPresent, hqt, hqo, hans] at hq; simp at hq
          | some ans =>
            rw [insertQuestions]
            simp only [hqt, hqo, hans]
            rw [ih fs _ (fun x hx => hkeys x (List.mem_cons_of_mem _ hx))]
            simp only [mkQuestions, hqt, hqo, hans]
            refine congrArg _ (congrArg _ ?_)
            congr 1
            · simp
            · simp [List.length_cons]
              omega
    | null => simp [questionKeysPresent] at hq
    | bool b => simp [questionKeysPresent] at hq
    | num n => simp [questionKeysPresent] at hq
    | str s => simp [questionKeysPresent] at hq
    | arr xs => simp [questionKeysPresent] at hq

theorem insertQuestions_stops_at_bad (audio_file : String) (quizId : Nat)
    (good : List Json) (bad : Json) (rest : List Json) :
    ∀ (fs : FS) (db : Db), (∀ q ∈ good, questionKeysPresent q = true) →
      questionKeysPresent bad = false →
      insertQuestions audio_file quizId (good ++ bad :: rest) fs db =
        (500, cleanup fs audio_file,
          { db with
            questions := db.questions ++ mkQuestions quizId db.nextQuestionId good,
            nextQuestionId := db.nextQuestionId + good.length }) := by
  induction good with
  | nil =>
    intro fs db _ hbad
    rw [List.nil_append]
    cases bad with
    | obj qkvs =>
      rw [insertQuestions]
      rw [questionKeysPresent] at hbad
      cases hqt : dictGet qkvs "question_title" with
      | none => simp only [hqt, mkQuestions]; simp
      | some qt =>
        cases hqo : dictGet qkvs "question_options" with
        | none => simp only [hqt, hqo, mkQuestions]; simp
        | some qo =>
          cases hans : dictGet qkvs "answer" with
          | none => simp only [hqt, hqo, hans, mkQuestions]; simp
          | some ans => rw [hqt, hqo, hans] at hbad; simp at hbad
    | null => simp [insertQuestions, mkQuestions]
    | bool b => simp [insertQuestions, mkQuestions]
    | num n => simp [insertQuestions, mkQuestions]
    | str s => simp [insertQuestions, mkQuestions]
    | arr xs => simp [insertQuestions, mkQuestions]
  | cons g good' ih =>
    intro fs db hkeys hbad
    have hg := hkeys g (List.mem_cons_self _ _)
    cases g with
    | obj qkvs =>
      cases hqt : dictGet qkvs "question_title" with
      | none => rw [questionKeysPresent, hqt] at hg; simp at hg
      | some qt =>
        cases hqo : dictGet qkvs "question_options" with
        | none => rw [questionKeysPresent, hqt, hqo] at hg; simp at hg
        | some qo =>
          cases hans : dictGet qkvs "answer" with
          | none => rw [questionKeysPresent, hqt, hqo, hans] at hg; simp at hg
          | some ans =>
            rw [List.cons_append, insertQuestions]
            simp only [hqt, hqo, hans]
            rw [ih fs _ (fun x hx => hkeys x (List.mem_cons_of_mem _ hx)) hbad]
            simp only [mkQuestions, hqt, hqo, hans]
            refine congrArg _ (congrArg _ ?_)
            congr 1
            · simp
            · simp [List.length_cons]
              omega
    | null => simp [questionKeysPresent] at hg
    | bool b => simp [questionKeysPresent] at hg
    | num n => simp [questionKeysPresent] at hg
    | str s => simp [questionKeysPresent] at hg
    | arr xs => simp [questionKeysPresent] at hg

/-- C1 counterexample.  A fully successful run whose draft question
has only 3 options and an answer outside them is answered 201 and the
question row is persisted as-is: the draft is not rejected even though
it violates the 4-distinct-options / answer-membership invariant. -/
theorem quiz_invalid_question_persisted :
    (createQuizPost envBadOptions [] sampleDb).1 = 201 ∧
    (createQuizPost envBadOptions [] sampleDb).2.2.questions =
      [invalidStoredQuestion] ∧
    specQuestionInvariant invalidStoredQuestion = false :=
  ⟨rfl, rfl, rfl⟩

/-- C1 amended.  The pipeline never checks option count, option
distinctness, or answer membership: any accepted draft (truthy parsed
JSON dict) whose question entries carry the three required keys is
persisted verbatim, question by question, and answered 201. -/
theorem quiz_questions_persisted_unvalidated (env : Env) (db : Db)
    (cu e tr k : String) (kvs : List (String × Json)) (qs : List Json)
    (h1 : env.urlValid = true)
    (h2 : extract_video_id env.inputUrl = some cu)
    (h3 : env.remoteExt = some e)
    (he : e ∈ (["webm", "m4a", "mp3"] : List String))
    (h4 : env.transcript = some tr)
    (h5 : env.apiKey = some k)
    (hk : (k == "") = false)
    (h6 : env.genReply = .parsed (.obj kvs))
    (h7 : kvs ≠ [])
    (h8 : dictGet kvs "questions" = some (.arr qs))
    (hkeys : ∀ q ∈ qs, questionKeysPresent q = true) :
    createQuizPost env [] db =
      (201, [],
        { quizzes := db.quizzes ++
            [{ id := db.nextQuizId, user := env.userId,
               title := (dictGet kvs "title").getD (.str "Generated Quiz"),
               description := (dictGet kvs "description").getD (.str ""),
               video_url := cu }],
          questions := db.questions ++ mkQuestions db.nextQuizId db.nextQuestionId qs,
          nextQuizId := db.nextQuizId + 1,
          nextQuestionId := db.nextQuestionId + qs.length }) := by
  have htr : pyTruthy (.obj kvs) = true := by simp [pyTruthy, h7]
  rw [createQuizPost_reaches_persist env db cu e tr k _ h1 h2 h3 he h4 h5 hk h6 htr,
    persistQuiz]
  simp only [h8, Option.getD_some]
  rw [insertQuestions_ok _ _ _ _ _ hkeys]

/-- Witness for the amended C1 at the `envBadOptions` run. -/
theorem quiz_questions_persisted_unvalidated_witness :
    createQuizPost envBadOptions [] sampleDb =
      (201, [],
        { quizzes := [storedQuizTD], questions := [invalidStoredQuestion],
          nextQuizId := 2, nextQuestionId := 2 }) :=
  quiz_questions_persisted_unvalidated envBadOptions sampleDb
    "https://www.youtube.com/watch?v=dQw4w9WgXcQ" "webm" "text" "k"
    [("title", .str "T"), ("description", .str "D"),
     ("questions", .arr [badOptionsQuestion])]
    [badOptionsQuestion]
    rfl rfl rfl (by decide) rfl rfl (by decide) rfl (List.cons_ne_nil _ _) rfl
    (by decide)

/-- C2 counterexample.  When yt-dlp stores the audio with an
extension outside the probed `webm`/`m4a`/`mp3` set (here `opus`), the
run answers 500 and the scratch file is still on disk when the
pipeline returns. -/
theorem scratch_file_left_behind :
    (createQuizPost envOpus [] sampleDb).1 = 500 ∧
    (createQuizPost envOpus [] sampleDb).2.1 = ["temp_audio_7.opus"] ∧
    scratchPath 7 "opus" = "temp_audio_7.opus" :=
  ⟨rfl, rfl, rfl⟩

/-- C2 amended.  On every exit path of a run started with an empty
scratch directory — download raising, transcription raising,
generation failing, persistence raising, or full success — no scratch
file remains, provided the downloaded file's extension is one the
probe loop recognizes (`webm`, `m4a`, `mp3`); a file with an
unrecognized extension is the one exit that leaves a file behind. -/
theorem scratch_cleanup_when_recognized (env : Env) (db : Db)
    (h : env.remoteExt = none ∨
      ∃ e, e ∈ (["webm", "m4a", "mp3"] : List String) ∧ env.remoteExt = some e) :
    (createQuizPost env [] db).2.1 = [] := by
  rw [createQuizPost]
  by_cases hu : env.urlValid = false
  · rw [if_pos hu]
  · rw [if_neg hu]
    cases hx : extract_video_id env.inputUrl with
    | none => simp only [hx]
    | some cu =>
      simp only [hx]
      rcases h with h3 | ⟨e, he, h3⟩
      · simp only [h3, download_audio]
      · simp only [h3, download_audio, addFile_nil, findAudioFile_single _ he]
        cases ht : env.transcript with
        | none => simp only [ht, cleanup_single]
        | some tr =>
          simp only [ht, cleanup_single]
          cases hg : generate_quiz_from_transcript env.apiKey env.genReply with
          | none => simp only [hg]
          | some qd =>
            simp only [hg]
            by_cases hpt : pyTruthy qd = false
            · rw [if_pos hpt]
            · rw [if_neg hpt]
              rcases persistQuiz_fs (scratchBase env.userId ++ "." ++ e)
                  env.userId cu qd [] db with hp | hp <;> rw [hp]
              exact cleanup_nil _

/-- Witness for the amended C2 at a fully successful run. -/
theorem scratch_cleanup_when_recognized_witness :
    (createQuizPost envBadOptions [] sampleDb).2.1 = [] :=
  scratch_cleanup_when_recognized envBadOptions sampleDb
    (Or.inr ⟨"webm", by decide, rfl⟩)

/-- C4 counterexample.  A run whose 3-question draft has a malformed
second question answers 500 with the quiz row and the first question
row still in the store: the write of Quiz plus Questions is not
atomic, and a quiz with fewer questions than the draft remains. -/
theorem quiz_mid_insert_partial_rows :
    (createQuizPost envMidInsert [] sampleDb).1 = 500 ∧
    (createQuizPost envMidInsert [] sampleDb).2.2.quizzes.length = 1 ∧
    (createQuizPost envMidInsert [] sampleDb).2.2.questions.length = 1 ∧
    (∃ kvs qs, envMidInsert.genReply = .parsed (.obj kvs) ∧
      dictGet kvs "questions" = some (.arr qs) ∧ qs.length = 3) :=
  ⟨rfl, rfl, rfl,
    ⟨[("title", .str "T"),
      ("questions", .arr [okQuestion, noAnswerQuestion, okQuestion])],
     [okQuestion, noAnswerQuestion, okQuestion], rfl, rfl, rfl⟩⟩

/-- C4 amended.  Persistence is not atomic: on a mid-insert failure
the run answers 500, but the Quiz row and every Question row inserted
before the malformed entry stay in the store. -/
theorem quiz_partial_persist_mid_insert (env : Env) (db : Db)
    (cu e tr k : String) (kvs : List (String × Json))
    (good : List Json) (bad : Json) (rest : List Json)
    (h1 : env.urlValid = true)
    (h2 : extract_video_id env.inputUrl = some cu)
    (h3 : env.remoteExt = some e)
    (he : e ∈ (["webm", "m4a", "mp3"] : List String))
    (h4 : env.transcript = some tr)
    (h5 : env.apiKey = some k)
    (hk : (k == "") = false)
    (h6 : env.genReply = .parsed (.obj kvs))
    (h7 : kvs ≠ [])
    (h8 : dictGet kvs "questions" = some (.arr (good ++ bad :: rest)))
    (hgood : ∀ q ∈ good, questionKeysPresent q = true)
    (hbad : questionKeysPresent bad = false) :
    createQuizPost env [] db =
      (500, [],
        { quizzes := db.quizzes ++
            [{ id := db.nextQuizId, user := env.userId,
               title := (dictGet kvs "title").getD (.str "Generated Quiz"),
               description := (dictGet kvs "description").getD (.str ""),
               video_url := cu }],
          questions := db.questions ++ mkQuestions db.nextQuizId db.nextQuestionId good,
          nextQuizId := db.nextQuizId + 1,
          nextQuestionId := db.nextQuestionId + good.length }) := by
  have htr : pyTruthy (.obj kvs) = true := by simp [pyTruthy, h7]
  rw [createQuizPost_reaches_persist env db cu e tr k _ h1 h2 h3 he h4 h5 hk h6 htr,
    persistQuiz]
  simp only [h8, Option.getD_some]
  rw [insertQuestions_stops_at_bad _ _ _ _ _ _ _ hgood hbad, cleanup_nil]

/-- Witness for the amended C4 at the `envMidInsert` run. -/
theorem quiz_partial_persist_mid_insert_witness :
    createQuizPost envMidInsert [] sampleDb =
      (500, [],
        { quizzes := [storedQuizT], questions := [okStoredQuestion],
          nextQuizId := 2, nextQuestionId := 2 }) :=
  quiz_partial_persist_mid_insert envMidInsert sampleDb
    "https://www.youtube.com/watch?v=dQw4w9WgXcQ" "webm" "text" "k"
    [("title", .str "T"),
     ("questions", .arr [okQuestion, noAnswerQuestion, okQuestion])]
    [okQuestion] noAnswerQuestion [okQuestion]
    rfl rfl rfl (by decide) rfl rfl (by decide) rfl (List.cons_ne_nil _ _) rfl
    (by decide) (by decide)

/-! ## QuizDetailView authorization (C6) -/

theorem find_by_id {l : List QuizRec} {q : QuizRec} {pk : Nat}
    (hnodup : (l.map QuizRec.id).Nodup) (hq : q ∈ l) (hid : q.id = pk) :
    l.find? (fun r => r.id == pk) = some q := by
  induction l with
  | nil => cases hq
  | cons a l ih =>
    rw [List.map_cons, List.nodup_cons] at hnodup
    rcases List.mem_cons.1 hq with rfl | hmem
    · rw [List.find?_cons_of_pos _ (by simp [hid])]
    · have ha : a.id ≠ pk := by
        intro hapk
        exact hnodup.1 (hapk ▸ hid ▸ List.mem_map_of_mem QuizRec.id hmem)
      rw [List.find?_cons_of_neg _ (by simp [ha])]
      exact ih hnodup.2 hmem

/-- C6.  For authenticated GET/PATCH/DELETE on quiz id `pk` (primary
keys unique): when a quiz with that id exists and is owned by another
user, the status is 403 (never 404, never a success status); when no
quiz with that id exists, the status is 404. -/
theorem quizDetail_forbidden_vs_missing (db : Db) (pk user : Nat)
    (hnodup : (db.quizzes.map QuizRec.id).Nodup) :
    (∀ q ∈ db.quizzes, q.id = pk → q.user ≠ user →
      quizDetailGet db pk user = 403 ∧
      (∀ v, quizDetailPatch db pk user v = 403) ∧
      (quizDetailDelete db pk user).1 = 403) ∧
    ((∀ q ∈ db.quizzes, q.id ≠ pk) →
      quizDetailGet db pk user = 404 ∧
      (∀ v, quizDetailPatch db pk user v = 404) ∧
      (quizDetailDelete db pk user).1 = 404) := by
  constructor
  · intro q hq hid hu
    have hobj : get_object db pk user = .denied := by
      rw [get_object, find_by_id hnodup hq hid]
      simp [hu]
    exact ⟨by simp [quizDetailGet, hobj], fun v => by simp [quizDetailPatch, hobj],
      by simp [quizDetailDelete, hobj]⟩
  · intro hnone
    have hobj : get_object db pk user = .http404 := by
      rw [get_object, List.find?_eq_none.2 (fun r hr => by simp [hnone r hr])]
    exact ⟨by simp [quizDetailGet, hobj], fun v => by simp [quizDetailPatch, hobj],
      by simp [quizDetailDelete, hobj]⟩

/-- Witness for C6: user 2 requesting user 1's quiz gets 403 on all
three methods; a missing id gets 404 on all three. -/
theorem quizDetail_forbidden_vs_missing_witness :
    quizDetailGet twoUserDb 1 2 = 403 ∧ quizDetailPatch twoUserDb 1 2 true = 403 ∧
    (quizDetailDelete twoUserDb 1 2).1 = 403 ∧
    quizDetailGet twoUserDb 9 2 = 404 ∧ quizDetailPatch twoUserDb 9 2 true = 404 ∧
    (quizDetailDelete twoUserDb 9 2).1 = 404 := by
  have h1 := (quizDetail_forbidden_vs_missing twoUserDb 1 2 (by decide)).1
    otherUsersQuiz (List.mem_cons_self _ _) rfl (by decide)
  have h9 := (quizDetail_forbidden_vs_missing twoUserDb 9 2 (by decide)).2
    (by intro q hq; rcases List.mem_singleton.1 hq with rfl; decide)
  exact ⟨h1.1, h1.2.1 true, h1.2.2, h9.1, h9.2.1 true, h9.2.2⟩

/-- C10.  A run whose accepted draft is a non-empty dict without a
`questions` key is answered 201 and persisted with an empty question
list, the title defaulting to `Generated Quiz` when the `title` key is
absent and the description defaulting to the empty string when the
`description` key is absent (`.get` defaults, views.py:63-64,68). -/
theorem quiz_defaults_when_keys_missing (env : Env) (db : Db)
    (cu e tr k : String) (kvs : List (String × Json))
    (h1 : env.urlValid = true)
    (h2 : extract_video_id env.inputUrl = some cu)
    (h3 : env.remoteExt = some e)
    (he : e ∈ (["webm", "m4a", "mp3"] : List String))
    (h4 : env.transcript = some tr)
    (h5 : env.apiKey = some k)
    (hk : (k == "") = false)
    (h6 : env.genReply = .parsed (.obj kvs))
    (h7 : kvs ≠ [])
    (h8 : dictGet kvs "questions" = none) :
    createQuizPost env [] db =
      (201, [],
        { db with
          quizzes := db.quizzes ++
            [{ id := db.nextQuizId, user := env.userId,
               title := (dictGet kvs "title").getD (.str "Generated Quiz"),
               description := (dictGet kvs "description").getD (.str ""),
               video_url := cu }],
          nextQuizId := db.nextQuizId + 1 }) := by
  have htr : pyTruthy (.obj kvs) = true := by simp [pyTruthy, h7]
  rw [createQuizPost_reaches_persist env db cu e tr k _ h1 h2 h3 he h4 h5 hk h6 htr,
    persistQuiz]
  simp only [h8, Option.getD_none]
  rw [insertQuestions]

/-- Witness for C10 at the `envNoKeys` run: both defaults stored. -/
theorem quiz_defaults_when_keys_missing_witness :
    createQuizPost envNoKeys [] sampleDb =
      (201, [],
        { quizzes := [storedQuizDefaults], questions := [],
          nextQuizId := 2, nextQuestionId := 1 }) :=
  quiz_defaults_when_keys_missing envNoKeys sampleDb
    "https://www.youtube.com/watch?v=dQw4w9WgXcQ" "webm" "text" "k"
    [("foo", .num 1)]
    rfl rfl rfl (by decide) rfl rfl (by decide) rfl (List.cons_ne_nil _ _) rfl

end Quizly
